import Mathlib

/-!
Verification of the audio capture/playback subsystem (`audio.py`) and the
waveform-format validation of the transcription pipeline (`converter.py`)
of the `summarize` repository, against its natural-language specification.

The embedding models bytes as `Nat`, a captured chunk as `List Nat`, and the
waveform container written by the `wave` module as a header structure plus a
byte payload.  Hardware reads and writes are modelled by explicit schedules
(the data each blocking read returns, whether the driver reported an overrun,
whether each playback write succeeds), and the two-thread recording session is
modelled by the value of the shared `recording` flag the capture thread
observes at each loop head.
-/

/-! ## pyaudio constants and helpers -/

/-- pyaudio sample-format constant `paFloat32`. -/
def paFloat32 : Nat := 1

/-- pyaudio sample-format constant `paInt32`. -/
def paInt32 : Nat := 2

/-- pyaudio sample-format constant `paInt24`. -/
def paInt24 : Nat := 4

/-- pyaudio sample-format constant `paInt16` (the default format in `Audio.__init__`). -/
def paInt16 : Nat := 8

/-- pyaudio sample-format constant `paInt8`. -/
def paInt8 : Nat := 16

/-- pyaudio sample-format constant `paUInt8`. -/
def paUInt8 : Nat := 32

/-- `pyaudio.PyAudio().get_sample_size(format)`: bytes per sample for a format
constant (used by `_write_to_file` to derive the header's sample width). -/
def get_sample_size (format : Nat) : Nat :=
  if format = paFloat32 then 4
  else if format = paInt32 then 4
  else if format = paInt24 then 3
  else if format = paInt16 then 2
  else if format = paInt8 then 1
  else if format = paUInt8 then 1
  else 0

/-- `pyaudio.PyAudio().get_format_from_width(width)` with the default
`unsigned=True`, used by `_open_audio_stream` in playback mode. -/
def get_format_from_width (width : Nat) : Nat :=
  if width = 1 then paUInt8
  else if width = 2 then paInt16
  else if width = 3 then paInt24
  else if width = 4 then paFloat32
  else 0

/-! ## Data model -/

/-- The waveform container as written/read by Python's `wave` module: header
fields plus the concatenated PCM payload bytes. -/
structure WaveformFile where
  nchannels : Nat
  sampwidth : Nat
  framerate : Nat
  comptype : String
  payload : List Nat
deriving DecidableEq

/-- The mutable attributes of an `Audio` object that the claims depend on
(`filepath` and the raw pyaudio/stream handles are runtime I/O handles and
carry no data the claims mention). -/
structure Device where
  id : Nat
  name : String
deriving DecidableEq

/-- One entry of the host's device table, as returned by
`pyaudio.PyAudio().get_device_info_by_index(i)`. -/
structure DeviceInfo where
  name : String
  maxInputChannels : Nat
  maxOutputChannels : Nat
deriving DecidableEq

/-- The state of an `Audio` object: configuration fields set in `__init__`
plus the mutable `recording` flag, the `recorded_frames` list, and the
device lists mutated by `_get_available_devices`. -/
structure AudioState where
  sample_rate : Nat
  channels : Nat
  format : Nat
  frames_per_buffer : Nat
  recording : Bool
  recorded_frames : List (List Nat)
  microphones : List Device
  speakers : List Device
deriving DecidableEq

/-- `Audio.__init__` with the default parameters:
`sample_rate=16000, channels=1, format=paInt16, frames_per_buffer=4096`,
and the attributes `recording=True`, `recorded_frames=[]`,
`microphones=[]`, `speakers=[]`. -/
def Audio.init : AudioState :=
  { sample_rate := 16000
  , channels := 1
  , format := paInt16
  , frames_per_buffer := 4096
  , recording := true
  , recorded_frames := []
  , microphones := []
  , speakers := [] }

/-! ## Waveform codec -/

/-- `Audio._write_to_file`: joins `recorded_frames` into one payload and
writes a wave file whose header carries `channels`, the sample width derived
from `format` via `get_sample_size`, and `sample_rate`.  The `wave` module
writes compression type `"NONE"` (uncompressed) since `setcomptype` is never
called. -/
def Audio.write_to_file (a : AudioState) : WaveformFile :=
  { nchannels := a.channels
  , sampwidth := get_sample_size a.format
  , framerate := a.sample_rate
  , comptype := "NONE"
  , payload := a.recorded_frames.flatten }

/-- The chunked read loop `data = file.readframes(n); while data: ...` used by
`Audio.play` (and `Converter._read_audio_file`): successive `chunk_bytes`-byte
chunks of the payload, stopping when a read returns no bytes.  `chunk_bytes`
is the byte size of one `readframes` call, i.e. frames×channels×sampwidth. -/
def read_frames_chunks (chunk_bytes : Nat) (payload : List Nat) : List (List Nat) :=
  if h : payload = [] ∨ chunk_bytes = 0 then []
  else payload.take chunk_bytes :: read_frames_chunks chunk_bytes (payload.drop chunk_bytes)
termination_by payload.length
decreasing_by
  push_neg at h
  have hlen : 0 < payload.length := List.length_pos.mpr h.1
  simp only [List.length_drop]
  exact Nat.sub_lt hlen (Nat.pos_of_ne_zero h.2)

/-! ## Capture loop and recording session -/

/-- The outcome of one blocking hardware read: the returned chunk and whether
the driver reported an input overflow during it. -/
structure ReadResult where
  data : List Nat
  overflowed : Bool
deriving DecidableEq

/-- `stream.read(n, exception_on_overflow=b)`: raises `IOError` when an
overflow occurred and `exception_on_overflow` is true, otherwise returns the
chunk. -/
def stream_read (exception_on_overflow : Bool) (r : ReadResult) : Except String (List Nat) :=
  if exception_on_overflow && r.overflowed then Except.error "Input overflowed"
  else Except.ok r.data

/-- `Audio._record_thread`: `while self.recording: data = read(...); append`.
`recording` is the value of the shared flag the thread observes: when the
coordinator has already cleared it the loop body never runs; otherwise
`reads` lists the hardware reads performed before the coordinator's
stop-write becomes visible at a loop head, at which point the loop exits.
The source passes `exception_on_overflow=False` to every read. -/
def capture_loop (recording : Bool) (reads : List ReadResult) (frames : List (List Nat)) :
    Except String (List (List Nat)) :=
  match recording, reads with
  | false, _ => Except.ok frames
  | true, [] => Except.ok frames
  | true, r :: rest =>
    match stream_read false r with
    | Except.error e => Except.error e
    | Except.ok data => capture_loop true rest (frames ++ [data])

/-- The coordinator-side actions of one `Audio.record` call, in the order the
source performs them. -/
inductive REvent where
  | openStream
  | startThread
  | setStopSignal
  | joinThread
  | closeStream
  | writeFile
deriving DecidableEq, BEq

/-- The straight-line order of `Audio.record`: open the stream, start the
capture thread, set `recording = False`, join the thread, close the stream,
write the file. -/
def recordTrace : List REvent :=
  [REvent.openStream, REvent.startThread, REvent.setStopSignal,
   REvent.joinThread, REvent.closeStream, REvent.writeFile]

/-- The result of a completed `Audio.record` call: the object state after the
session, the coordinator's event trace, and the file written at the end. -/
structure RecordOutcome where
  state : AudioState
  events : List REvent
  file : WaveformFile
deriving DecidableEq

/-- `Audio.record`: opens the stream, starts `_record_thread`, waits for the
stop input, sets `recording = False`, joins the thread (committing the frames
the thread appended), closes the stream, and writes the file.  The method
never sets `recording` back to `True`, so the thread runs under the flag
value the object already had. -/
def Audio.record (a : AudioState) (reads : List ReadResult) : Except String RecordOutcome :=
  match capture_loop a.recording reads a.recorded_frames with
  | Except.error e => Except.error e
  | Except.ok frames =>
    let stopped := { a with recording := false, recorded_frames := frames }
    Except.ok { state := stopped, events := recordTrace, file := Audio.write_to_file stopped }

/-! ## Stream opening and device handling -/

/-- The host audio layer's default device indices, as returned by
`get_default_input_device_info()['index']` and
`get_default_output_device_info()['index']`. -/
structure HostAudio where
  default_input_index : Nat
  default_output_index : Nat
deriving DecidableEq

/-- The arguments `Audio._open_audio_stream` passes to `pyaudio.open`. -/
structure OpenedStream where
  input : Bool
  output : Bool
  audio_format : Nat
  stream_channels : Nat
  rate : Nat
  frames_per_buffer : Nat
  input_device_index : Nat
  output_device_index : Nat
deriving DecidableEq

/-- `Audio._open_audio_stream(record, file_bytes, input_device_index,
output_device_index)`: resolves an omitted device index to the host default
for that direction, then opens a capture stream from the object's config or a
playback stream from the wave file's header.  Playback without a file is the
Python `AttributeError` on `None.getsampwidth()`. -/
def Audio.open_audio_stream (a : AudioState) (host : HostAudio) (rec : Bool)
    (file_bytes : Option WaveformFile)
    (input_device_index output_device_index : Option Nat) :
    Except String OpenedStream :=
  let inIdx := match input_device_index with
    | none => host.default_input_index
    | some i => i
  let outIdx := match output_device_index with
    | none => host.default_output_index
    | some i => i
  if rec then
    Except.ok
      { input := true
      , output := false
      , audio_format := a.format
      , stream_channels := a.channels
      , rate := a.sample_rate
      , frames_per_buffer := a.frames_per_buffer
      , input_device_index := inIdx
      , output_device_index := outIdx }
  else
    match file_bytes with
    | none => Except.error "AttributeError"
    | some fb =>
      Except.ok
        { input := false
        , output := true
        , audio_format := get_format_from_width fb.sampwidth
        , stream_channels := fb.nchannels
        , rate := fb.framerate
        , frames_per_buffer := a.frames_per_buffer
        , input_device_index := inIdx
        , output_device_index := outIdx }

/-- The stream-opening part of `Audio.record` (lines 134-140): when
`use_default` is false the user selects a device and its index is stored in
the local `device_index`, but the call `self._open_audio_stream()` passes no
arguments, so both device indices are `None` regardless. -/
def Audio.record_open_stream (a : AudioState) (host : HostAudio)
    (use_default : Bool) (selected : Nat) : Except String OpenedStream :=
  let device_index : Option Nat := if use_default then none else some selected
  Audio.open_audio_stream a host true none none none

/-- The stream-opening part of `Audio.play` (lines 162-169): the selected (or
omitted) device index is passed as `output_device_index`. -/
def Audio.play_open_stream (a : AudioState) (host : HostAudio)
    (use_default : Bool) (selected : Nat) (file : WaveformFile) :
    Except String OpenedStream :=
  let device_index : Option Nat := if use_default then none else some selected
  Audio.open_audio_stream a host false (some file) none device_index

/-! ## Playback session -/

/-- The stream-lifecycle actions of one `Audio.play` call. -/
inductive PEvent where
  | openStream
  | writeChunk (data : List Nat)
  | closeStream
deriving DecidableEq

/-- The playback write loop: each chunk is written by a blocking call that the
hardware may fail; `outcome i` tells whether the i-th write succeeds.  A
failing write raises, producing no event and abandoning the rest of the
loop. -/
def play_loop (outcome : Nat → Bool) : Nat → List (List Nat) → List PEvent × Option String
  | _, [] => ([], none)
  | i, c :: rest =>
    if outcome i then
      let next := play_loop outcome (i + 1) rest
      (PEvent.writeChunk c :: next.1, next.2)
    else ([], some "write failed")

/-- `Audio.play` stream lifecycle: opens the output stream inside the
`with wave.open(...)` block, writes `frames_per_buffer`-frame chunks until a
read returns no bytes, then calls `_close_audio_stream()`.  There is no
try/finally around the loop: an exception from a write leaves the
`_close_audio_stream()` call unreached (the `with` block only closes the
wave file). -/
def Audio.play (f : WaveformFile) (frames_per_buffer : Nat) (outcome : Nat → Bool) :
    List PEvent × Option String :=
  match play_loop outcome 0
      (read_frames_chunks (frames_per_buffer * f.nchannels * f.sampwidth) f.payload) with
  | (evs, none) => (PEvent.openStream :: evs ++ [PEvent.closeStream], none)
  | (evs, some e) => (PEvent.openStream :: evs, some e)

/-! ## Device enumeration -/

/-- The loop body of `Audio._get_available_devices`: walks the host's device
table with its index, appending `{id, name}` to the microphone list when
`maxInputChannels > 0` and to the speaker list when `maxOutputChannels > 0`. -/
def enum_devices : List DeviceInfo → Nat → List Device × List Device → List Device × List Device
  | [], _, acc => acc
  | info :: rest, i, (mics, spks) =>
    let d : Device := { id := i, name := info.name }
    let mics := if info.maxInputChannels > 0 then mics ++ [d] else mics
    let spks := if info.maxOutputChannels > 0 then spks ++ [d] else spks
    enum_devices rest (i + 1) (mics, spks)

/-- `Audio._get_available_devices`: appends this call's classification of the
host devices to the object's persistent `microphones` and `speakers` lists
(the lists are never cleared first). -/
def Audio.get_available_devices (host : List DeviceInfo) (a : AudioState) : AudioState :=
  let res := enum_devices host 0 (a.microphones, a.speakers)
  { a with microphones := res.1, speakers := res.2 }

/-! ## Converter -/

/-- `Converter._check_audio_file`: reads the header and raises
`ValueError('Audio input file must be WAV, mono, 16-bit PCM')` unless
channels = 1, sample width = 2 and compression type `"NONE"`. -/
def check_audio_file (f : WaveformFile) : Except String Unit :=
  if f.nchannels ≠ 1 ∨ f.sampwidth ≠ 2 ∨ f.comptype ≠ "NONE" then
    Except.error "Audio input file must be WAV, mono, 16-bit PCM"
  else Except.ok ()

/-- `Converter.audio_to_text`, restricted to what happens to the audio file:
`_check_audio_file` runs first and a failure propagates before
`_read_audio_file` touches any frame; otherwise `_read_audio_file` feeds the
payload to the recognizer in `readframes(4000)` chunks (4000 frames =
`4000 * nchannels * sampwidth` bytes), returned here as the list of chunks
processed. -/
def Converter.audio_to_text (f : WaveformFile) : Except String (List (List Nat)) :=
  match check_audio_file f with
  | Except.error e => Except.error e
  | Except.ok _ => Except.ok (read_frames_chunks (4000 * f.nchannels * f.sampwidth) f.payload)

/-! ## Supporting lemmas -/

/-- Reading an empty payload yields no chunks. -/
theorem read_frames_chunks_nil (chunk_bytes : Nat) :
    read_frames_chunks chunk_bytes [] = [] := by
  rw [read_frames_chunks]
  simp

/-- One step of the chunked read loop on a nonempty payload with a positive
chunk size. -/
theorem read_frames_chunks_cons (chunk_bytes : Nat) (payload : List Nat)
    (hp : payload ≠ []) (hc : chunk_bytes ≠ 0) :
    read_frames_chunks chunk_bytes payload =
      payload.take chunk_bytes :: read_frames_chunks chunk_bytes (payload.drop chunk_bytes) := by
  rw [read_frames_chunks]
  simp [hp, hc]

/-- Reading back the concatenation of equally sized nonempty chunks in chunks
of that same size recovers the original chunk list. -/
theorem read_frames_chunks_flatten (S : Nat) (hS : 0 < S) :
    ∀ chunks : List (List Nat), (∀ c ∈ chunks, c.length = S) →
      read_frames_chunks S chunks.flatten = chunks := by
  intro chunks
  induction chunks with
  | nil => intro _; simpa using read_frames_chunks_nil S
  | cons c rest ih =>
    intro hlen
    have hc : c.length = S := hlen c (List.mem_cons_self _ _)
    have hcne : c ≠ [] := by
      intro hnil
      rw [hnil] at hc
      simp at hc
      omega
    have hfne : (c :: rest).flatten ≠ [] := by
      simp only [List.flatten_cons, ne_eq, List.append_eq_nil]
      intro hand
      exact hcne hand.1
    rw [List.flatten_cons] at hfne ⊢
    rw [read_frames_chunks_cons S _ hfne (Nat.pos_iff_ne_zero.mp hS)]
    rw [List.take_left' hc, List.drop_left' hc]
    exact congrArg (c :: ·) (ih fun d hd => hlen d (List.mem_cons_of_mem c hd))

/-! ## Claim theorems -/

/-- C1: in every completed recording session the coordinator sets the stop
signal, then joins the capture thread, then closes the audio stream, and only
after that serializes the waveform file; serialization never precedes the
close or the join in the event trace. -/
theorem c1_stop_join_close_write_order (a : AudioState) (reads : List ReadResult)
    (o : RecordOutcome) (h : Audio.record a reads = Except.ok o) :
    o.events.indexOf REvent.setStopSignal < o.events.indexOf REvent.joinThread ∧
    o.events.indexOf REvent.joinThread < o.events.indexOf REvent.closeStream ∧
    o.events.indexOf REvent.closeStream < o.events.indexOf REvent.writeFile := by
  have hev : o.events = recordTrace := by
    cases hc : capture_loop a.recording reads a.recorded_frames with
    | error e => simp [Audio.record, hc] at h
    | ok frames =>
      simp [Audio.record, hc] at h
      rw [← h]
  rw [hev]
  decide

/-- The outcome of a session on a fresh object in which the stop input
arrives before the first capture-loop iteration. -/
def recordOutcomeNil : RecordOutcome :=
  { state := { Audio.init with recording := false, recorded_frames := [] }
  , events := recordTrace
  , file := Audio.write_to_file { Audio.init with recording := false, recorded_frames := [] } }

/-- Witness for C1 at a concrete completed session. -/
theorem c1_order_witness :
    recordOutcomeNil.events.indexOf REvent.setStopSignal <
      recordOutcomeNil.events.indexOf REvent.joinThread ∧
    recordOutcomeNil.events.indexOf REvent.joinThread <
      recordOutcomeNil.events.indexOf REvent.closeStream ∧
    recordOutcomeNil.events.indexOf REvent.closeStream <
      recordOutcomeNil.events.indexOf REvent.writeFile :=
  c1_stop_join_close_write_order Audio.init [] recordOutcomeNil rfl

/-- The 8192-byte chunk produced by one 4096-frame read of 16-bit mono
audio. -/
def chunk8192 : List Nat := List.replicate 8192 0

/-- The object state at the end of the three-iteration end-to-end session. -/
def c2State : AudioState :=
  { Audio.init with
    recording := false,
    recorded_frames := [chunk8192, chunk8192, chunk8192] }

/-- C2: a session configured with the defaults (rate 16000, mono, paInt16,
frames_per_buffer 4096) in which the capture loop runs three iterations each
appending an 8192-byte chunk serializes a file whose header reports frame
rate 16000, 1 channel, sample width 2, and whose payload is the 24576-byte
concatenation of the three chunks. -/
theorem c2_end_to_end :
    ∃ o, Audio.record Audio.init
        (List.replicate 3 { data := chunk8192, overflowed := false }) = Except.ok o ∧
      o.file.framerate = 16000 ∧ o.file.nchannels = 1 ∧ o.file.sampwidth = 2 ∧
      o.file.payload.length = 24576 ∧
      o.file.payload = chunk8192 ++ (chunk8192 ++ chunk8192) := by
  have h : Audio.record Audio.init
      (List.replicate 3 { data := chunk8192, overflowed := false }) =
      Except.ok { state := c2State, events := recordTrace, file := Audio.write_to_file c2State } := rfl
  have hchunk : chunk8192.length = 8192 := List.length_replicate 8192 0
  refine ⟨_, h, rfl, rfl, rfl, ?_, ?_⟩
  · show ([chunk8192, chunk8192, chunk8192].flatten).length = 24576
    simp only [List.flatten_cons, List.flatten_nil, List.append_nil, List.length_append, hchunk]
  · show [chunk8192, chunk8192, chunk8192].flatten = chunk8192 ++ (chunk8192 ++ chunk8192)
    simp only [List.flatten_cons, List.flatten_nil, List.append_nil]

/-- C3: writing a frame buffer of N chunks, each holding exactly
`frames_per_buffer` frames (`frames_per_buffer × channels × sampwidth`
bytes), and reading the resulting file back in `frames_per_buffer`-frame
chunks yields exactly N chunks whose concatenation equals the concatenation
of the originals. -/
theorem c3_round_trip (a : AudioState)
    (hS : 0 < a.frames_per_buffer * a.channels * get_sample_size a.format)
    (hlen : ∀ c ∈ a.recorded_frames,
      c.length = a.frames_per_buffer * a.channels * get_sample_size a.format) :
    (read_frames_chunks
        (a.frames_per_buffer * (Audio.write_to_file a).nchannels * (Audio.write_to_file a).sampwidth)
        (Audio.write_to_file a).payload).length = a.recorded_frames.length ∧
    (read_frames_chunks
        (a.frames_per_buffer * (Audio.write_to_file a).nchannels * (Audio.write_to_file a).sampwidth)
        (Audio.write_to_file a).payload).flatten = a.recorded_frames.flatten := by
  have hrt : read_frames_chunks
      (a.frames_per_buffer * (Audio.write_to_file a).nchannels * (Audio.write_to_file a).sampwidth)
      (Audio.write_to_file a).payload = a.recorded_frames := by
    show read_frames_chunks (a.frames_per_buffer * a.channels * get_sample_size a.format)
      a.recorded_frames.flatten = a.recorded_frames
    exact read_frames_chunks_flatten _ hS a.recorded_frames hlen
  rw [hrt]
  exact ⟨rfl, rfl⟩

/-- A small config for the round-trip witness: one frame per buffer, mono
16-bit, one captured chunk of two bytes. -/
def c3Demo : AudioState :=
  { Audio.init with frames_per_buffer := 1, recorded_frames := [[0, 0]] }

/-- Witness for C3: a single two-byte chunk round-trips under a
one-frame-per-buffer mono 16-bit config. -/
theorem c3_round_trip_witness :
    (0 < c3Demo.frames_per_buffer * c3Demo.channels * get_sample_size c3Demo.format ∧
      ∀ c ∈ c3Demo.recorded_frames,
        c.length = c3Demo.frames_per_buffer * c3Demo.channels * get_sample_size c3Demo.format) ∧
    ((read_frames_chunks
        (c3Demo.frames_per_buffer * (Audio.write_to_file c3Demo).nchannels *
          (Audio.write_to_file c3Demo).sampwidth)
        (Audio.write_to_file c3Demo).payload).length = c3Demo.recorded_frames.length ∧
    (read_frames_chunks
        (c3Demo.frames_per_buffer * (Audio.write_to_file c3Demo).nchannels *
          (Audio.write_to_file c3Demo).sampwidth)
        (Audio.write_to_file c3Demo).payload).flatten = c3Demo.recorded_frames.flatten) :=
  ⟨⟨by decide, by decide⟩, c3_round_trip c3Demo (by decide) (by decide)⟩

/-- C4: the PCM16-mono validation accepts a header iff channels = 1, sample
width = 2 bytes, and compression type "NONE" (so it rejects every other
combination with the format error), and in the audio-to-text pipeline a
failing check propagates before any payload chunk is read. -/
theorem c4_validate_pcm16_mono (f : WaveformFile) :
    (check_audio_file f = Except.ok () ↔
      (f.nchannels = 1 ∧ f.sampwidth = 2 ∧ f.comptype = "NONE")) ∧
    (∀ e, check_audio_file f = Except.error e →
      Converter.audio_to_text f = Except.error e) := by
  constructor
  · constructor
    · intro h
      by_contra hcon
      have hbad : f.nchannels ≠ 1 ∨ f.sampwidth ≠ 2 ∨ f.comptype ≠ "NONE" := by tauto
      simp [check_audio_file, hbad] at h
    · intro hok
      have hgood : ¬(f.nchannels ≠ 1 ∨ f.sampwidth ≠ 2 ∨ f.comptype ≠ "NONE") := by
        push_neg
        exact hok
      simp [check_audio_file, hgood]
  · intro e he
    simp [Converter.audio_to_text, he]

/-- A stereo file: the canonical violating header. -/
def badFile : WaveformFile :=
  { nchannels := 2, sampwidth := 2, framerate := 8000, comptype := "NONE", payload := [1, 2] }

/-- Witness for C4 at a stereo file: the check and the pipeline both fail with
the format error. -/
theorem c4_validate_witness :
    (check_audio_file badFile = Except.error "Audio input file must be WAV, mono, 16-bit PCM" ∧
      check_audio_file (Audio.write_to_file Audio.init) = Except.ok ()) ∧
    Converter.audio_to_text badFile =
      Except.error "Audio input file must be WAV, mono, 16-bit PCM" :=
  ⟨⟨rfl, rfl⟩, (c4_validate_pcm16_mono badFile).2 _ rfl⟩

/-- A two-chunk mono 16-bit file played at one frame per buffer (two-byte
chunks). -/
def playDemoFile : WaveformFile :=
  { nchannels := 1, sampwidth := 2, framerate := 16000, comptype := "NONE"
  , payload := [0, 0, 0, 0] }

/-- C5 counterexample: a playback run whose first hardware write fails ends
with the error propagating and no close of the audio stream — the stream is
not closed on this exit path, refuting the claim. -/
theorem c5_counterexample :
    (Audio.play playDemoFile 1 (fun _ => false)).2.isSome = true ∧
    PEvent.closeStream ∉ (Audio.play playDemoFile 1 (fun _ => false)).1 := by
  have hchunks : read_frames_chunks 2 [0, 0, 0, 0] = [[0, 0], [0, 0]] := by
    rw [read_frames_chunks_cons 2 _ (by decide) (by decide)]
    rw [show List.drop 2 [0, 0, 0, 0] = [0, 0] from rfl,
        show List.take 2 [0, 0, 0, 0] = [0, 0] from rfl]
    rw [read_frames_chunks_cons 2 _ (by decide) (by decide)]
    rw [show List.drop 2 [0, 0] = [] from rfl, show List.take 2 [0, 0] = [0, 0] from rfl]
    rw [read_frames_chunks_nil]
  have hplay : Audio.play playDemoFile 1 (fun _ => false) =
      (PEvent.openStream :: ([] : List PEvent), some "write failed") := by
    unfold Audio.play
    rw [show 1 * playDemoFile.nchannels * playDemoFile.sampwidth = 2 from rfl,
        show playDemoFile.payload = [0, 0, 0, 0] from rfl, hchunks]
    rfl
  rw [hplay]
  exact ⟨rfl, by simp⟩

/-- In the playback write loop itself no close of the audio stream ever
occurs: the loop only writes chunks. -/
theorem play_loop_no_close (outcome : Nat → Bool) :
    ∀ (chunks : List (List Nat)) (i : Nat),
      PEvent.closeStream ∉ (play_loop outcome i chunks).1 := by
  intro chunks
  induction chunks with
  | nil => intro i; simp [play_loop]
  | cons c rest ih =>
    intro i
    by_cases hk : outcome i
    · simp only [play_loop, hk, if_true]
      intro hmem
      rcases List.mem_cons.mp hmem with heq | hmem2
      · exact PEvent.noConfusion heq
      · exact ih (i + 1) hmem2
    · simp [play_loop, hk]

/-- C5 amended: every playback run either completes normally with the close
of the audio stream as its final action, or a write fails partway and the
error propagates without the audio stream being closed (only the wave file's
`with` block runs; `_close_audio_stream` is never reached on the error
path). -/
theorem c5_close_only_on_normal_exit (f : WaveformFile) (fpb : Nat) (outcome : Nat → Bool) :
    ((Audio.play f fpb outcome).2 = none ∧
      (Audio.play f fpb outcome).1.getLast? = some PEvent.closeStream) ∨
    ((Audio.play f fpb outcome).2.isSome = true ∧
      PEvent.closeStream ∉ (Audio.play f fpb outcome).1) := by
  unfold Audio.play
  cases hres : play_loop outcome 0 (read_frames_chunks (fpb * f.nchannels * f.sampwidth) f.payload) with
  | mk evs err =>
    have hnoclose : PEvent.closeStream ∉ evs := by
      have := play_loop_no_close outcome (read_frames_chunks (fpb * f.nchannels * f.sampwidth) f.payload) 0
      rw [hres] at this
      exact this
    cases err with
    | none =>
      left
      refine ⟨rfl, ?_⟩
      show (PEvent.openStream :: evs ++ [PEvent.closeStream]).getLast? = some PEvent.closeStream
      rw [List.getLast?_concat]
    | some e =>
      right
      refine ⟨rfl, ?_⟩
      show PEvent.closeStream ∉ PEvent.openStream :: evs
      intro hmem
      rcases List.mem_cons.mp hmem with heq | hmem2
      · exact PEvent.noConfusion heq
      · exact hnoclose hmem2

/-- C6: evaluating the stream-opening code at the failing input.  On a host
whose default input device is 0, `record(use_default=False)` with the user
selecting device 1 still opens the capture stream on device 0, because
`record` never passes the selected index to `_open_audio_stream`; the second
conjunct shows `_open_audio_stream` itself does honour a supplied index, so
the claim fails only through `record` discarding it. -/
theorem c6_record_ignores_selected_device :
    (Audio.record_open_stream Audio.init
        { default_input_index := 0, default_output_index := 0 } false 1).map
      (fun s => s.input_device_index) = Except.ok 0 ∧
    (Audio.open_audio_stream Audio.init
        { default_input_index := 0, default_output_index := 0 } true none (some 1) none).map
      (fun s => s.input_device_index) = Except.ok 1 :=
  ⟨rfl, rfl⟩

/-- A two-device host: one microphone, one speaker. -/
def demoHost : List DeviceInfo :=
  [{ name := "mic", maxInputChannels := 1, maxOutputChannels := 0 },
   { name := "spk", maxInputChannels := 0, maxOutputChannels := 1 }]

/-- C7 counterexample: on a fixed two-device host, calling the device
enumeration twice yields a different microphone list than calling it once —
the entries are accumulated across calls, refuting the claim. -/
theorem c7_counterexample :
    (Audio.get_available_devices demoHost
        (Audio.get_available_devices demoHost Audio.init)).microphones ≠
      (Audio.get_available_devices demoHost Audio.init).microphones := by
  decide

/-- The enumeration loop appends to its accumulators: running it from any
starting lists yields those lists extended by the run from empty lists. -/
theorem enum_devices_append (host : List DeviceInfo) :
    ∀ (i : Nat) (m s : List Device),
      enum_devices host i (m, s) =
        (m ++ (enum_devices host i ([], [])).1, s ++ (enum_devices host i ([], [])).2) := by
  induction host with
  | nil => intro i m s; simp [enum_devices]
  | cons d rest ih =>
    intro i m s
    simp only [enum_devices]
    rw [ih (i + 1)]
    conv_rhs => rw [ih]
    by_cases h1 : d.maxInputChannels > 0 <;> by_cases h2 : d.maxOutputChannels > 0 <;>
      simp [h1, h2, List.append_assoc]

/-- C7 amended: device enumeration is not a pure query — each call appends
the host's freshly classified microphone and speaker entries to the object's
persistent lists, so results accumulate across calls instead of repeating. -/
theorem c7_enumeration_accumulates (host : List DeviceInfo) (a : AudioState) :
    (Audio.get_available_devices host a).microphones =
      a.microphones ++ (enum_devices host 0 ([], [])).1 ∧
    (Audio.get_available_devices host a).speakers =
      a.speakers ++ (enum_devices host 0 ([], [])).2 := by
  unfold Audio.get_available_devices
  rw [enum_devices_append host 0 a.microphones a.speakers]
  exact ⟨rfl, rfl⟩

/-- C8: evaluating the code at the failing input.  After a first session on a
fresh object captures the chunk [1, 2], a second `record()` call on the same
object starts with that chunk still in `recorded_frames` (the buffer is not
re-created empty) and the file it writes has payload [1, 2] — a chunk from
the previous session — while the second session's own read of [3, 4] is
never captured. -/
theorem c8_second_session_reuses_frames :
    ((Audio.record Audio.init [{ data := [1, 2], overflowed := false }]).bind fun o1 =>
      (Audio.record o1.state [{ data := [3, 4], overflowed := false }]).map fun o2 =>
        (o1.state.recorded_frames, o2.file.payload))
      = Except.ok ([[1, 2]], [1, 2]) :=
  rfl

/-- C9: in a capture-loop iteration whose hardware read reports an overrun,
the read (made with `exception_on_overflow=False`) does not raise but returns
its chunk, the chunk is appended to the frame buffer, and the loop continues
with the remaining iterations. -/
theorem c9_overrun_tolerated (r : ReadResult) (rest : List ReadResult)
    (frames : List (List Nat)) (h : r.overflowed = true) :
    stream_read false r = Except.ok r.data ∧
    capture_loop true (r :: rest) frames = capture_loop true rest (frames ++ [r.data]) := by
  constructor
  · simp [stream_read]
  · simp [capture_loop, stream_read]

/-- Witness for C9 at a concrete overrun read. -/
theorem c9_overrun_witness :
    ({ data := [5], overflowed := true } : ReadResult).overflowed = true ∧
    (stream_read false { data := [5], overflowed := true } = Except.ok [5] ∧
      capture_loop true [{ data := [5], overflowed := true }] [] =
        capture_loop true [] ([] ++ [[5]])) :=
  ⟨rfl, c9_overrun_tolerated { data := [5], overflowed := true } [] [] rfl⟩

/-- C10: a completed session leaves the stop flag False, and a second
`record()` call on the same object never re-arms it, so its capture thread
appends nothing: the second outcome's frame list equals the first session's,
and the second file — payload and header alike — is the first session's file
written again. -/
theorem c10_stop_flag_not_rearmed (reads1 reads2 : List ReadResult)
    (o1 o2 : RecordOutcome)
    (h1 : Audio.record Audio.init reads1 = Except.ok o1)
    (h2 : Audio.record o1.state reads2 = Except.ok o2) :
    o1.state.recording = false ∧ o2.state.recording = false ∧
    o2.state.recorded_frames = o1.state.recorded_frames ∧
    o2.file.payload = o1.state.recorded_frames.flatten ∧
    o2.file = o1.file := by
  cases hc1 : capture_loop Audio.init.recording reads1 Audio.init.recorded_frames with
  | error e => simp [Audio.record, hc1] at h1
  | ok frames1 =>
    simp only [Audio.record, hc1] at h1
    rw [Except.ok.injEq] at h1
    subst h1
    have hc2 : capture_loop false reads2 frames1 = Except.ok frames1 := by
      cases reads2 <;> simp [capture_loop]
    simp only [Audio.record, hc2] at h2
    rw [Except.ok.injEq] at h2
    subst h2
    exact ⟨rfl, rfl, rfl, rfl, rfl⟩

/-- The state of the object after a first session that captured one chunk. -/
def c10State : AudioState :=
  { Audio.init with recording := false, recorded_frames := [[7]] }

/-- The outcome of that first session (and, identically, of the second). -/
def c10Outcome : RecordOutcome :=
  { state := c10State, events := recordTrace, file := Audio.write_to_file c10State }

/-- Witness for C10: a first session capturing [7] followed by a second
record() call whose read schedule offers [9]; the second outcome repeats the
first. -/
theorem c10_stop_flag_witness :
    c10Outcome.state.recording = false ∧ c10Outcome.state.recording = false ∧
    c10Outcome.state.recorded_frames = c10Outcome.state.recorded_frames ∧
    c10Outcome.file.payload = c10Outcome.state.recorded_frames.flatten ∧
    c10Outcome.file = c10Outcome.file :=
  c10_stop_flag_not_rearmed [{ data := [7], overflowed := false }]
    [{ data := [9], overflowed := false }] c10Outcome c10Outcome rfl rfl
